import Mathlib

/-!
# Presence-tracking system: UI client and backend contract

Shallow embedding of the STOMP presence console
(`src/presence-systemfrontend/app/page.tsx`) together with the backend
Room Directory / Session Lifecycle contract it consumes.  The backend is
not part of the repository, so its operations are modelled from the
specification text; the UI definitions are translated from the source.
-/

namespace Presence

/-- The `MessageType` union from page.tsx. -/
inductive MessageType where
  | JOIN
  | LEAVE
  | PING
  | SYSTEM
  | ROOM_PRESENCE
  | ONLINE_USERS
deriving DecidableEq, Repr

/-- The `PresenceUser` type from page.tsx (optional fields are `Option`,
`none` meaning the JSON key is absent). -/
structure PresenceUser where
  userId : String
  username : String
  currentRoom : Option String
  lastSeen : Option String
  online : Option Bool
  createdAt : Option String
deriving DecidableEq, Repr

/-- The `RoomPresence` type from page.tsx. -/
structure RoomPresence where
  roomId : String
  userCount : Nat
  users : List PresenceUser
deriving DecidableEq, Repr

/-- The `SystemStats` type from page.tsx. -/
structure SystemStats where
  totalUsers : Option Nat
  onlineUsers : Option Nat
  activeRooms : Option Nat
  activeSessions : Option Nat
  timestamp : Option String
deriving DecidableEq, Repr

/-- A `WireMessage` body literal as supplied by a caller of `sendMessage`
in page.tsx: `type` is mandatory, every other field is optional and
`none` models an absent key (the call sites only ever pass `type`). -/
structure WireMessage where
  type : MessageType
  roomId : Option String
  userId : Option String
  username : Option String
  content : Option String
deriving DecidableEq, Repr

/-- The serialized frame produced by `sendMessage`'s
`JSON.stringify({ roomId, userId, username, ...body })`: a field that is
`none` is absent from the JSON text. -/
structure SentFrame where
  type : MessageType
  roomId : Option String
  userId : Option String
  username : Option String
  content : Option String
deriving DecidableEq, Repr

/-- One entry of the `logs` state array in page.tsx. -/
structure LogEntry where
  content : String
  roomId : Option String
  timestamp : String
deriving DecidableEq, Repr

/-- The argument object of `addLog` in page.tsx: `roomId` and `timestamp`
are optional. -/
structure LogInput where
  content : String
  roomId : Option String
  timestamp : Option String
deriving DecidableEq, Repr

/-- `addLog` from page.tsx: prepend the new entry (the timestamp falls
back to the current time `now`, as `new Date().toISOString()`) and keep
the first 30 entries (`.slice(0, 30)`). -/
def addLog (entry : LogInput) (now : String) (prev : List LogEntry) : List LogEntry :=
  (LogEntry.mk entry.content entry.roomId (entry.timestamp.getD now) :: prev).take 30

/-- The `status` state of page.tsx. -/
inductive ConnStatus where
  | disconnected
  | connecting
  | connected
deriving DecidableEq, Repr

/-- The `activeTab` state of page.tsx. -/
inductive UITab where
  | room
  | globalTab
  | logsTab
deriving DecidableEq, Repr

/-- The React state and refs of the `Home` component in page.tsx.
`clientRefSet` models `clientRef.current !== null`, `stompConnected`
models `clientRef.current.connected`, and `roomSub` holds the
destination of `roomSubscriptionRef.current` (`none` when null). -/
structure UIState where
  wsUrl : String
  userId : String
  username : String
  roomId : String
  status : ConnStatus
  presence : Option RoomPresence
  onlineUsers : List PresenceUser
  logs : List LogEntry
  stats : Option SystemStats
  error : Option String
  lastPing : Option String
  activeTab : UITab
  clientRefSet : Bool
  stompConnected : Bool
  roomSub : Option String
deriving DecidableEq, Repr

/-- An observable effect of the UI on the STOMP transport. -/
inductive Action where
  | subscribe (dest : String)
  | unsubscribe (dest : String)
  | publish (dest : String) (frame : SentFrame)
deriving DecidableEq, Repr

/-- A body literal passing only `type`, as every `sendMessage` call site
in page.tsx does (`{ type: "JOIN" }` and the like). -/
def typed (t : MessageType) : WireMessage :=
  WireMessage.mk t none none none none

/-- One field of the JS spread `{ roomId, userId, username, ...body }`:
the caller's value wins when the key is present, the default otherwise. -/
def overrideField (dflt : String) (ov : Option String) : Option String :=
  match ov with
  | some v => some v
  | none => some dflt

/-- The object serialized by `sendMessage` in page.tsx:
`{ roomId, userId, username, ...body }` with the state's `roomId`,
`userId` and `username` as defaults. -/
def mergeBody (st : UIState) (body : WireMessage) : SentFrame :=
  SentFrame.mk body.type (overrideField st.roomId body.roomId)
    (overrideField st.userId body.userId) (overrideField st.username body.username)
    body.content

/-- The frame `sendMessage` produces for a `typed t` call-site body. -/
def frameOf (st : UIState) (t : MessageType) : SentFrame :=
  SentFrame.mk t (some st.roomId) (some st.userId) (some st.username) none

/-- `sendMessage` from page.tsx: with no client or a disconnected client
(`!client || !client.connected`) it sets the error state and returns;
otherwise it publishes exactly one frame, the merged body. -/
def sendMessage (st : UIState) (destination : String) (body : WireMessage) :
    UIState × List Action :=
  if st.clientRefSet && st.stompConnected then
    (st, [Action.publish destination (mergeBody st body)])
  else
    ({ st with error := some "Connect first to send messages." }, [])

/-- `subscribeCoreRoutes` from page.tsx: subscribe the three
per-connection queues. -/
def subscribeCoreRoutes : List Action :=
  [Action.subscribe "/user/queue/room-presence",
   Action.subscribe "/user/queue/online-users",
   Action.subscribe "/user/queue/system-stats"]

/-- `subscribeRoom` from page.tsx: unsubscribe the previous room-topic
subscription (when one exists), then subscribe `/topic/room/{room}` and
store the new subscription in `roomSubscriptionRef`. -/
def subscribeRoom (st : UIState) (room : String) : UIState × List Action :=
  ({ st with roomSub := some ("/topic/room/" ++ room) },
   (match st.roomSub with
    | some d => [Action.unsubscribe d]
    | none => []) ++ [Action.subscribe ("/topic/room/" ++ room)])

/-- `requestPresence` from page.tsx. -/
def requestPresence (st : UIState) : UIState × List Action :=
  sendMessage st "/app/room/presence" (typed MessageType.ROOM_PRESENCE)

/-- `requestOnline` from page.tsx. -/
def requestOnline (st : UIState) : UIState × List Action :=
  sendMessage st "/app/users/online" (typed MessageType.ONLINE_USERS)

/-- `requestStats` from page.tsx. -/
def requestStats (st : UIState) : UIState × List Action :=
  sendMessage st "/app/system/stats" (typed MessageType.SYSTEM)

/-- `sendPing` from page.tsx: publish a PING and record the ping time. -/
def sendPing (st : UIState) (now : String) : UIState × List Action :=
  let s := sendMessage st "/app/ping" (typed MessageType.PING)
  ({ s.1 with lastPing := some now }, s.2)

/-- `leaveRoom` from page.tsx: publish a LEAVE, clear the presence
snapshot and log the departure (the log entry carries no roomId field). -/
def leaveRoom (st : UIState) (now : String) : UIState × List Action :=
  let s := sendMessage st "/app/leave" (typed MessageType.LEAVE)
  let newLogs := addLog (LogInput.mk ("Left room " ++ st.roomId) none none) now s.1.logs
  ({ s.1 with presence := none, logs := newLogs }, s.2)

/-- The `onConnect` callback of `connectAndJoin` in page.tsx.  When the
STOMP library fires it, `clientRef.current` is the freshly activated,
connected client, which the model records by setting `clientRefSet` and
`stompConnected`.  The callback marks the status connected, clears the
error, subscribes the three core queues and the current room's topic,
publishes JOIN and the three snapshot requests, and logs the join. -/
def onConnect (st : UIState) (now : String) : UIState × List Action :=
  let st0 : UIState :=
    { st with status := ConnStatus.connected, error := none,
              clientRefSet := true, stompConnected := true }
  let r := subscribeRoom st0 st0.roomId
  let s1 := sendMessage r.1 "/app/join" (typed MessageType.JOIN)
  let s2 := requestPresence s1.1
  let s3 := requestOnline s2.1
  let s4 := requestStats s3.1
  let newLogs :=
    addLog (LogInput.mk ("Joined room " ++ st.roomId) (some st.roomId) none) now s4.1.logs
  ({ s4.1 with logs := newLogs },
   subscribeCoreRoutes ++ r.2 ++ s1.2 ++ s2.2 ++ s3.2 ++ s4.2)

/-- `switchRoom` from page.tsx: when not connected it only sets an error;
otherwise it re-subscribes the room topic (closing the old subscription
inside `subscribeRoom`), publishes JOIN, requests presence and logs the
move. -/
def switchRoom (st : UIState) (now : String) : UIState × List Action :=
  if st.status = ConnStatus.connected then
    let r := subscribeRoom st st.roomId
    let s1 := sendMessage r.1 "/app/join" (typed MessageType.JOIN)
    let s2 := requestPresence s1.1
    let newLogs := addLog (LogInput.mk ("Moved to " ++ st.roomId) none none) now s2.1.logs
    ({ s2.1 with logs := newLogs }, r.2 ++ s1.2 ++ s2.2)
  else
    ({ st with error := some "Connect first, then switch rooms." }, [])

/-- `disconnect` from page.tsx: unsubscribe the room topic, deactivate
and drop the client, mark disconnected, clear the presence snapshot. -/
def disconnectUI (st : UIState) : UIState × List Action :=
  ({ st with roomSub := none, clientRefSet := false, stompConnected := false,
             status := ConnStatus.disconnected, presence := none },
   match st.roomSub with
   | some d => [Action.unsubscribe d]
   | none => [])

/-- The `onStompError` callback in page.tsx: record the broker's message
header (falling back to "Broker error") and mark disconnected. -/
def onStompBrokerError (st : UIState) (header : Option String) :
    UIState × List Action :=
  ({ st with error := some (header.getD "Broker error"),
             status := ConnStatus.disconnected }, [])

/-- The `onWebSocketError` callback in page.tsx. -/
def onWsFailure (st : UIState) : UIState × List Action :=
  ({ st with error := some "WebSocket connection failed",
             status := ConnStatus.disconnected }, [])

/-- Every entry point of page.tsx that can reach `client.publish`,
together with the non-publishing transport callbacks. -/
inductive UIEvent where
  | stompConnected (now : String)
  | switchRoomClick (now : String)
  | pingClick (now : String)
  | leaveClick (now : String)
  | disconnectClick
  | brokerError (header : Option String)
  | wsError
deriving DecidableEq, Repr

/-- One UI step: dispatch an event to its page.tsx handler. -/
def uiStep (st : UIState) (ev : UIEvent) : UIState × List Action :=
  match ev with
  | UIEvent.stompConnected now => onConnect st now
  | UIEvent.switchRoomClick now => switchRoom st now
  | UIEvent.pingClick now => sendPing st now
  | UIEvent.leaveClick now => leaveRoom st now
  | UIEvent.disconnectClick => disconnectUI st
  | UIEvent.brokerError header => onStompBrokerError st header
  | UIEvent.wsError => onWsFailure st

/-- The six application destinations the UI publishes to. -/
def appDestinations : List String :=
  ["/app/join", "/app/leave", "/app/ping", "/app/room/presence",
   "/app/users/online", "/app/system/stats"]

/-- No frame published to `/app/leave` occurs in the action list. -/
def noLeavePublish (acts : List Action) : Prop :=
  ∀ f, Action.publish "/app/leave" f ∉ acts

/-- The configuration page.tsx passes to `new Client({...})` in
`connectAndJoin` (the fields the claims are about). -/
structure StompClientConfig where
  reconnectDelay : Nat
deriving DecidableEq, Repr

/-- `connectAndJoin` constructs its client with `reconnectDelay: 5000`. -/
def connectClientConfig : StompClientConfig :=
  StompClientConfig.mk 5000

/-- Modelled from the spec: the backend Room Directory `join(roomId, userId)`
(§4.2) is not in the repository (the repo is all UI); it adds the user to the
room's member set, creating the room if absent.  A room identifier maps to its
member set, the empty set standing for a room that does not exist. -/
def joinD (rooms : String → Finset String) (r u : String) : String → Finset String :=
  Function.update rooms r (insert u (rooms r))

/-- Modelled from the spec: the backend Room Directory `leave(roomId, userId)`
(§4.2) is not in the repository; it removes the user and returns the updated
snapshot, or `none` when the room no longer exists (never existed, already
empty, or emptied by this leave) — idempotent, not an error. -/
def leaveD (rooms : String → Finset String) (r u : String) :
    Option (Finset String) × (String → Finset String) :=
  if rooms r = ∅ then (none, rooms)
  else
    let ms := (rooms r).erase u
    (if ms = ∅ then none else some ms, Function.update rooms r ms)

/-- Modelled from the spec: the backend's shared state (§2, §3) is not in the
repository; `rooms` is the Room Directory's member sets and `current` the
Connection Registry's per-user current room (`none` until JOIN). -/
structure Server where
  rooms : String → Finset String
  current : String → Option String

/-- Modelled from the spec: the observable outputs of the backend's handlers
(§4.3, §4.4, §7).  `reconnect` is a transport re-establishment attempt; it
exists so that "the server never retries the connection" is expressible. -/
inductive ServerAction where
  | broadcast (roomId : String)
  | systemErrorReply (msg : String)
  | reconnect
deriving DecidableEq, Repr

/-- Modelled from the spec: leaving the connection's current room, if any
(§4.4) — the directory leave plus clearing the registry's room binding. -/
def leaveCurrent (s : Server) (u : String) : Server :=
  match s.current u with
  | some r => Server.mk (leaveD s.rooms r u).2 (Function.update s.current u none)
  | none => s

/-- Modelled from the spec: the JOIN/LEAVE requests a single connection can
issue (§4.4, §8). -/
inductive SessionOp where
  | join (roomId : String)
  | leave
deriving DecidableEq, Repr

/-- Modelled from the spec: the Session Lifecycle transition for one JOIN or
LEAVE (§4.4): JOIN performs an implicit leave of the prior room before joining
the new one; LEAVE is a no-op when no room is joined. -/
def stepOp (u : String) (s : Server) : SessionOp → Server
  | SessionOp.join r =>
      let s1 := leaveCurrent s u
      Server.mk (joinD s1.rooms r u) (Function.update s1.current u (some r))
  | SessionOp.leave => leaveCurrent s u

/-- A whole sequence of JOIN/LEAVE requests from one connection. -/
def applyOps (s : Server) (u : String) (ops : List SessionOp) : Server :=
  ops.foldl (stepOp u) s

/-- Every room membership of `u` is recorded as `u`'s current room. -/
def memberInv (s : Server) (u : String) : Prop :=
  ∀ r, u ∈ s.rooms r → s.current u = some r

/-- No room snapshot shows `u` in two rooms simultaneously. -/
def atMostOneRoom (s : Server) (u : String) : Prop :=
  ∀ r1 r2, u ∈ s.rooms r1 → u ∈ s.rooms r2 → r1 = r2

/-- `u` belongs to no room at all. -/
def noMembership (s : Server) (u : String) : Prop :=
  ∀ r, u ∉ s.rooms r

/-- Modelled from the spec: the backend handler for a LEAVE wire frame
(§4.4, §7), absent from the repository: a frame missing `userId` is answered
with a SYSTEM error reply; otherwise the directory leave runs, the registry
forgets the room only when it was the connection's current one, and a LEAVE
for a room the connection never joined is a no-op, not an error. -/
def handleLeaveFrame (s : Server) (uid : Option String) (r : String) :
    Server × List ServerAction :=
  match uid with
  | none => (s, [ServerAction.systemErrorReply "LEAVE frame missing userId"])
  | some u =>
      if s.current u = some r then
        (Server.mk (leaveD s.rooms r u).2 (Function.update s.current u none),
         [ServerAction.broadcast r])
      else
        (Server.mk (leaveD s.rooms r u).2 s.current, [])

/-- Modelled from the spec: the backend's transport-close cleanup (§4.4, §7),
absent from the repository: it forces a LEAVE of the current room, purges the
registry binding, and never retries the connection — the client owns the
reconnect policy. -/
def onTransportClose (s : Server) (u : String) : Server × List ServerAction :=
  match s.current u with
  | some r =>
      (Server.mk (leaveD s.rooms r u).2 (Function.update s.current u none),
       [ServerAction.broadcast r])
  | none => (s, [])

/-- A backend with no rooms and no registered current room. -/
def freshServer : Server := Server.mk (fun _ => ∅) (fun _ => none)

/-- A directory whose only room is `ops`, occupied by `alice`. -/
def dOps : String → Finset String :=
  fun r => if r = "ops" then {"alice"} else ∅

/-- A backend where `alice` occupies `ops` and nobody else is in a room. -/
def serverDemo : Server :=
  Server.mk dOps (fun u => if u = "alice" then some "ops" else none)

/-- A directory with no rooms. -/
def emptyRooms : String → Finset String := fun _ => ∅

/-- A demo request sequence: join `ops`, switch to `eng`, leave. -/
def opsDemo : List SessionOp :=
  [SessionOp.join "ops", SessionOp.join "eng", SessionOp.leave]

/-- A connected UI state subscribed to the `ops` room topic. -/
def stLive : UIState :=
  UIState.mk "http://localhost:8080/ws-presence" "u1" "Thomas Abas" "eng"
    ConnStatus.connected none [] [] none none none UITab.room true true
    (some "/topic/room/ops")

/-- A disconnected UI state, as on the gateway screen before connecting. -/
def stGateway : UIState :=
  UIState.mk "http://localhost:8080/ws-presence" "u1" "Thomas Abas" "mission-control"
    ConnStatus.disconnected none [] [] none none none UITab.room false false none

end Presence

namespace Presence

/-- C9: `addLog` prepends the new entry and truncates to at most 30
entries, so the log list never exceeds 30 entries and its head is always
the most recently added entry. -/
theorem addLog_prepends_and_caps (entry : LogInput) (now : String)
    (prev : List LogEntry) :
    (addLog entry now prev).length ≤ 30 ∧
    (addLog entry now prev).head? =
      some (LogEntry.mk entry.content entry.roomId (entry.timestamp.getD now)) := by
  constructor
  · simp [addLog, List.length_take]
  · simp [addLog]

lemma mergeBody_typed (st : UIState) (t : MessageType) :
    mergeBody st (typed t) = frameOf st t := rfl

lemma sendMessage_connected (st : UIState) (d : String) (b : WireMessage)
    (h1 : st.clientRefSet = true) (h2 : st.stompConnected = true) :
    sendMessage st d b = (st, [Action.publish d (mergeBody st b)]) := by
  simp [sendMessage, h1, h2]

lemma sendMessage_offline (st : UIState) (d : String) (b : WireMessage)
    (h : (st.clientRefSet && st.stompConnected) = false) :
    sendMessage st d b =
      ({ st with error := some "Connect first to send messages." }, []) := by
  simp [sendMessage, h]

lemma onConnect_acts (st : UIState) (now : String) :
    (onConnect st now).2 =
      subscribeCoreRoutes ++
      ((match st.roomSub with
        | some d => [Action.unsubscribe d]
        | none => []) ++ [Action.subscribe ("/topic/room/" ++ st.roomId)]) ++
      [Action.publish "/app/join" (frameOf st MessageType.JOIN)] ++
      [Action.publish "/app/room/presence" (frameOf st MessageType.ROOM_PRESENCE)] ++
      [Action.publish "/app/users/online" (frameOf st MessageType.ONLINE_USERS)] ++
      [Action.publish "/app/system/stats" (frameOf st MessageType.SYSTEM)] := rfl

lemma switchRoom_connected_acts (st : UIState) (now : String)
    (hs : st.status = ConnStatus.connected) (h1 : st.clientRefSet = true)
    (h2 : st.stompConnected = true) :
    (switchRoom st now).2 =
      (match st.roomSub with
       | some d => [Action.unsubscribe d]
       | none => []) ++
      [Action.subscribe ("/topic/room/" ++ st.roomId),
       Action.publish "/app/join" (frameOf st MessageType.JOIN),
       Action.publish "/app/room/presence" (frameOf st MessageType.ROOM_PRESENCE)] := by
  cases hr : st.roomSub <;>
    simp [switchRoom, subscribeRoom, requestPresence, sendMessage, hs, h1, h2, hr,
      mergeBody, typed, overrideField, frameOf]

lemma switchRoom_offline (st : UIState) (now : String)
    (hs : st.status ≠ ConnStatus.connected) :
    switchRoom st now =
      ({ st with error := some "Connect first, then switch rooms." }, []) := by
  simp [switchRoom, hs]

/-- C1: on a successful STOMP connect, the `onConnect` callback
subscribes all three per-connection queues and the current room's topic
`/topic/room/{roomId}`, and publishes a JOIN frame to `/app/join`, for
every state (hence every roomId) current at connect time. -/
theorem connect_subscribes_queues_topic_and_joins (st : UIState) (now : String) :
    Action.subscribe "/user/queue/room-presence" ∈ (onConnect st now).2 ∧
    Action.subscribe "/user/queue/online-users" ∈ (onConnect st now).2 ∧
    Action.subscribe "/user/queue/system-stats" ∈ (onConnect st now).2 ∧
    Action.subscribe ("/topic/room/" ++ st.roomId) ∈ (onConnect st now).2 ∧
    ∃ f, Action.publish "/app/join" f ∈ (onConnect st now).2 ∧
      f.type = MessageType.JOIN := by
  rw [onConnect_acts]
  refine ⟨?_, ?_, ?_, ?_, frameOf st MessageType.JOIN, ?_, rfl⟩ <;>
    cases hr : st.roomSub <;> simp [subscribeCoreRoutes, hr]

/-- C2: while connected (status `connected` and a live client),
`switchRoom` first unsubscribes the previous room-topic subscription,
then subscribes the new room's topic, then publishes JOIN to
`/app/join` (followed only by a presence request) and never publishes
to `/app/leave`; when not connected it only sets the error state and
performs no transport action. -/
theorem room_switch_resubscribes_then_joins (st : UIState) (now : String) :
    (st.status = ConnStatus.connected → st.clientRefSet = true →
      st.stompConnected = true →
      (switchRoom st now).2 =
        (match st.roomSub with
         | some d => [Action.unsubscribe d]
         | none => []) ++
        [Action.subscribe ("/topic/room/" ++ st.roomId),
         Action.publish "/app/join" (frameOf st MessageType.JOIN),
         Action.publish "/app/room/presence" (frameOf st MessageType.ROOM_PRESENCE)] ∧
      noLeavePublish (switchRoom st now).2) ∧
    (st.status ≠ ConnStatus.connected →
      switchRoom st now =
        ({ st with error := some "Connect first, then switch rooms." }, [])) := by
  refine ⟨fun hs h1 h2 => ⟨switchRoom_connected_acts st now hs h1 h2, ?_⟩,
    switchRoom_offline st now⟩
  rw [switchRoom_connected_acts st now hs h1 h2]
  intro f
  cases hr : st.roomSub <;> simp

lemma switchRoom_noclient_acts (st : UIState) (now : String)
    (hs : st.status = ConnStatus.connected)
    (hb : (st.clientRefSet && st.stompConnected) = false) :
    (switchRoom st now).2 =
      (match st.roomSub with
       | some d => [Action.unsubscribe d]
       | none => []) ++ [Action.subscribe ("/topic/room/" ++ st.roomId)] := by
  cases hr : st.roomSub <;>
    simp [switchRoom, subscribeRoom, requestPresence, sendMessage, hs, hb, hr]

/-- Every frame page.tsx ever hands to `client.publish` goes to one of
the six `/app` destinations and is a `frameOf` frame: the state's
`roomId`, `userId`, `username` merged under the caller's body. -/
lemma uiStep_publish (st : UIState) (ev : UIEvent) (d : String) (f : SentFrame)
    (h : Action.publish d f ∈ (uiStep st ev).2) :
    d ∈ appDestinations ∧ ∃ st' t, f = frameOf st' t := by
  cases ev with
  | stompConnected now =>
      rw [show uiStep st (UIEvent.stompConnected now) = onConnect st now from rfl,
        onConnect_acts] at h
      cases hr : st.roomSub <;> rw [hr] at h <;>
        simp only [subscribeCoreRoutes, List.mem_append, List.mem_cons,
          List.mem_singleton, List.not_mem_nil, or_false, false_or, reduceCtorEq,
          Action.publish.injEq] at h <;>
        casesm* _ ∨ _, _ ∧ _ <;>
        subst_vars <;>
        exact ⟨by simp [appDestinations], _, _, rfl⟩
  | switchRoomClick now =>
      by_cases hs : st.status = ConnStatus.connected
      · by_cases hb : (st.clientRefSet && st.stompConnected) = true
        · have hb' : st.clientRefSet = true ∧ st.stompConnected = true := by
            simpa using hb
          rw [show uiStep st (UIEvent.switchRoomClick now) = switchRoom st now from rfl,
            switchRoom_connected_acts st now hs hb'.1 hb'.2] at h
          cases hr : st.roomSub <;> rw [hr] at h <;>
            simp only [List.mem_append, List.mem_cons, List.mem_singleton,
              List.not_mem_nil, or_false, false_or, reduceCtorEq,
              Action.publish.injEq] at h <;>
            casesm* _ ∨ _, _ ∧ _ <;>
            subst_vars <;>
            exact ⟨by simp [appDestinations], _, _, rfl⟩
        · have hb' : (st.clientRefSet && st.stompConnected) = false := by simpa using hb
          rw [show uiStep st (UIEvent.switchRoomClick now) = switchRoom st now from rfl,
            switchRoom_noclient_acts st now hs hb'] at h
          cases hr : st.roomSub <;> rw [hr] at h <;> simp at h
      · rw [show uiStep st (UIEvent.switchRoomClick now) = switchRoom st now from rfl,
          switchRoom_offline st now hs] at h
        simp at h
  | pingClick now =>
      by_cases hb : (st.clientRefSet && st.stompConnected) = true
      · have hb' : st.clientRefSet = true ∧ st.stompConnected = true := by simpa using hb
        rw [show (uiStep st (UIEvent.pingClick now)).2 =
            (sendMessage st "/app/ping" (typed MessageType.PING)).2 from rfl,
          sendMessage_connected st _ _ hb'.1 hb'.2] at h
        simp only [List.mem_singleton, Action.publish.injEq] at h
        obtain ⟨rfl, rfl⟩ := h
        exact ⟨by simp [appDestinations], st, MessageType.PING, rfl⟩
      · have hb' : (st.clientRefSet && st.stompConnected) = false := by simpa using hb
        rw [show (uiStep st (UIEvent.pingClick now)).2 =
            (sendMessage st "/app/ping" (typed MessageType.PING)).2 from rfl,
          sendMessage_offline st _ _ hb'] at h
        simp at h
  | leaveClick now =>
      by_cases hb : (st.clientRefSet && st.stompConnected) = true
      · have hb' : st.clientRefSet = true ∧ st.stompConnected = true := by simpa using hb
        rw [show (uiStep st (UIEvent.leaveClick now)).2 =
            (sendMessage st "/app/leave" (typed MessageType.LEAVE)).2 from rfl,
          sendMessage_connected st _ _ hb'.1 hb'.2] at h
        simp only [List.mem_singleton, Action.publish.injEq] at h
        obtain ⟨rfl, rfl⟩ := h
        exact ⟨by simp [appDestinations], st, MessageType.LEAVE, rfl⟩
      · have hb' : (st.clientRefSet && st.stompConnected) = false := by simpa using hb
        rw [show (uiStep st (UIEvent.leaveClick now)).2 =
            (sendMessage st "/app/leave" (typed MessageType.LEAVE)).2 from rfl,
          sendMessage_offline st _ _ hb'] at h
        simp at h
  | disconnectClick =>
      rw [show (uiStep st UIEvent.disconnectClick).2 = (disconnectUI st).2 from rfl] at h
      cases hr : st.roomSub <;>
        simp [disconnectUI, hr] at h
  | brokerError header =>
      simp [uiStep, onStompBrokerError] at h
  | wsError =>
      simp [uiStep, onWsFailure] at h

/-- C2 witness: the connected and the disconnected branch at concrete
states. -/
theorem room_switch_resubscribes_witness :
    (switchRoom stLive "t0").2 =
      [Action.unsubscribe "/topic/room/ops",
       Action.subscribe "/topic/room/eng",
       Action.publish "/app/join" (frameOf stLive MessageType.JOIN),
       Action.publish "/app/room/presence" (frameOf stLive MessageType.ROOM_PRESENCE)] ∧
    noLeavePublish (switchRoom stLive "t0").2 ∧
    switchRoom stGateway "t0" =
      ({ stGateway with error := some "Connect first, then switch rooms." }, []) := by
  obtain ⟨ha, hb⟩ := (room_switch_resubscribes_then_joins stLive "t0").1 rfl rfl rfl
  exact ⟨ha, hb, (room_switch_resubscribes_then_joins stGateway "t0").2 (by decide)⟩

/-- C3: every frame the UI publishes goes to one of the six `/app`
destinations, and its JSON body carries `userId`, `username` and
`roomId` (the mandatory `type` field is part of every frame by
construction): the caller's body fields are merged over the state's
defaults, and every merged identity field is present. -/
theorem publishes_use_app_destinations_and_identity (st : UIState) (ev : UIEvent)
    (d : String) (f : SentFrame) (h : Action.publish d f ∈ (uiStep st ev).2) :
    (d = "/app/join" ∨ d = "/app/leave" ∨ d = "/app/ping" ∨
     d = "/app/room/presence" ∨ d = "/app/users/online" ∨ d = "/app/system/stats") ∧
    f.userId.isSome = true ∧ f.username.isSome = true ∧ f.roomId.isSome = true := by
  obtain ⟨hd, st', t, rfl⟩ := uiStep_publish st ev d f h
  exact ⟨by simpa [appDestinations] using hd, rfl, rfl, rfl⟩

/-- C3 witness: a concrete PING publish from a connected state. -/
theorem publishes_use_app_destinations_witness :
    Action.publish "/app/ping" (frameOf stLive MessageType.PING) ∈
      (uiStep stLive (UIEvent.pingClick "t0")).2 ∧
    (("/app/ping" = "/app/join" ∨ "/app/ping" = "/app/leave" ∨
      "/app/ping" = "/app/ping" ∨ "/app/ping" = "/app/room/presence" ∨
      "/app/ping" = "/app/users/online" ∨ "/app/ping" = "/app/system/stats") ∧
     (frameOf stLive MessageType.PING).userId.isSome = true ∧
     (frameOf stLive MessageType.PING).username.isSome = true ∧
     (frameOf stLive MessageType.PING).roomId.isSome = true) := by
  have hm : Action.publish "/app/ping" (frameOf stLive MessageType.PING) ∈
      (uiStep stLive (UIEvent.pingClick "t0")).2 := by decide
  exact ⟨hm, publishes_use_app_destinations_and_identity stLive _ _ _ hm⟩

/-- C4: any call to `sendMessage` that reaches `client.publish` merges a
non-absent `userId` into the serialized frame, whatever the caller's
body; hence no UI entry point ever publishes a frame missing `userId`. -/
theorem published_frames_carry_userId :
    (∀ (st : UIState) (dest : String) (b : WireMessage) (d : String) (f : SentFrame),
      Action.publish d f ∈ (sendMessage st dest b).2 → f.userId.isSome = true) ∧
    (∀ (st : UIState) (ev : UIEvent) (d : String) (f : SentFrame),
      Action.publish d f ∈ (uiStep st ev).2 → f.userId.isSome = true) := by
  constructor
  · intro st dest b d f h
    unfold sendMessage at h
    split at h
    · simp only [List.mem_singleton, Action.publish.injEq] at h
      obtain ⟨-, rfl⟩ := h
      show (overrideField st.userId b.userId).isSome = true
      cases b.userId <;> rfl
    · simp at h
  · intro st ev d f h
    obtain ⟨-, st', t, rfl⟩ := uiStep_publish st ev d f h
    rfl

/-- C4 witness: a concrete LEAVE publish from a connected state. -/
theorem published_frames_carry_userId_witness :
    Action.publish "/app/leave" (frameOf stLive MessageType.LEAVE) ∈
      (uiStep stLive (UIEvent.leaveClick "t0")).2 ∧
    (frameOf stLive MessageType.LEAVE).userId.isSome = true := by
  have hm : Action.publish "/app/leave" (frameOf stLive MessageType.LEAVE) ∈
      (uiStep stLive (UIEvent.leaveClick "t0")).2 := by decide
  exact ⟨hm, published_frames_carry_userId.2 stLive _ _ _ hm⟩

/-- C10: with a null client reference or a disconnected client,
`sendMessage` publishes nothing and only sets the error state to
"Connect first to send messages." (every other field of the state is
unchanged by the record update); otherwise it leaves the state alone and
publishes exactly one frame. -/
theorem sendMessage_gate_and_single_frame (st : UIState) (d : String)
    (b : WireMessage) :
    ((st.clientRefSet = false ∨ st.stompConnected = false) →
      sendMessage st d b =
        ({ st with error := some "Connect first to send messages." }, [])) ∧
    (st.clientRefSet = true → st.stompConnected = true →
      sendMessage st d b = (st, [Action.publish d (mergeBody st b)])) := by
  constructor
  · intro hor
    apply sendMessage_offline
    rcases hor with h | h <;> simp [h]
  · exact sendMessage_connected st d b

/-- C10 witness: both branches at concrete states. -/
theorem sendMessage_gate_witness :
    sendMessage stGateway "/app/join" (typed MessageType.JOIN) =
      ({ stGateway with error := some "Connect first to send messages." }, []) ∧
    sendMessage stLive "/app/join" (typed MessageType.JOIN) =
      (stLive, [Action.publish "/app/join" (mergeBody stLive (typed MessageType.JOIN))]) :=
  ⟨(sendMessage_gate_and_single_frame stGateway "/app/join" (typed MessageType.JOIN)).1
      (Or.inl rfl),
   (sendMessage_gate_and_single_frame stLive "/app/join" (typed MessageType.JOIN)).2
      rfl rfl⟩

lemma leaveD_apply_ne (rooms : String → Finset String) (r u r' : String)
    (h : r' ≠ r) : (leaveD rooms r u).2 r' = rooms r' := by
  unfold leaveD
  split
  · rfl
  · simp [Function.update_noteq h]

lemma not_mem_leaveD_self (rooms : String → Finset String) (r u : String) :
    u ∉ (leaveD rooms r u).2 r := by
  unfold leaveD
  split
  · rename_i he
    show u ∉ rooms r
    rw [he]
    exact Finset.not_mem_empty u
  · show u ∉ Function.update rooms r ((rooms r).erase u) r
    rw [Function.update_same]
    exact Finset.not_mem_erase u _

lemma leaveD_noop (rooms : String → Finset String) (r u : String)
    (hm : u ∉ rooms r) : (leaveD rooms r u).2 = rooms := by
  funext r'
  by_cases he : r' = r
  · subst he
    unfold leaveD
    split
    · rfl
    · show Function.update rooms r' ((rooms r').erase u) r' = rooms r'
      rw [Function.update_same, Finset.erase_eq_of_not_mem hm]
  · exact leaveD_apply_ne rooms r u r' he

lemma leaveCurrent_not_mem (s : Server) (u : String) (hinv : memberInv s u) :
    ∀ r', u ∉ (leaveCurrent s u).rooms r' := by
  intro r'
  cases hc : s.current u with
  | none =>
      have hs : leaveCurrent s u = s := by
        unfold leaveCurrent
        rw [hc]
      rw [hs]
      intro hm
      have := hinv r' hm
      rw [hc] at this
      exact Option.noConfusion this
  | some r0 =>
      have hs : (leaveCurrent s u).rooms = (leaveD s.rooms r0 u).2 := by
        unfold leaveCurrent
        rw [hc]
      rw [hs]
      by_cases he : r' = r0
      · subst he
        exact not_mem_leaveD_self s.rooms r' u
      · intro hm
        have hm' : u ∈ s.rooms r' := by
          rw [leaveD_apply_ne s.rooms r0 u r' he] at hm
          exact hm
        have := hinv r' hm'
        rw [hc] at this
        exact he (Option.some.inj this).symm

lemma stepOp_preserves (u : String) (s : Server) (op : SessionOp)
    (hinv : memberInv s u) : memberInv (stepOp u s op) u := by
  cases op with
  | leave =>
      intro r hm
      exact absurd hm (leaveCurrent_not_mem s u hinv r)
  | join r =>
      intro r' hm
      have hm' : u ∈ joinD (leaveCurrent s u).rooms r u r' := hm
      show Function.update (leaveCurrent s u).current u (some r) u = some r'
      rw [Function.update_same]
      by_cases he : r' = r
      · rw [he]
      · exfalso
        rw [joinD, Function.update_noteq he] at hm'
        exact leaveCurrent_not_mem s u hinv r' hm'

lemma applyOps_preserves (s : Server) (u : String) (ops : List SessionOp)
    (hinv : memberInv s u) : memberInv (applyOps s u ops) u := by
  induction ops generalizing s with
  | nil => exact hinv
  | cons op rest ih => exact ih (stepOp u s op) (stepOp_preserves u s op hinv)

/-- C5: for every sequence of JOIN/LEAVE requests from a single
connection that starts outside every room, every state along the way
shows the connection in at most one room — a room switch implicitly
leaves the prior room inside the JOIN transition. -/
theorem single_connection_at_most_one_room (s : Server) (u : String)
    (h : noMembership s u) (ops : List SessionOp) :
    atMostOneRoom (applyOps s u ops) u := by
  have hinv : memberInv s u := fun r hm => absurd hm (h r)
  have hf := applyOps_preserves s u ops hinv
  intro r1 r2 h1 h2
  exact Option.some.inj ((hf r1 h1).symm.trans (hf r2 h2))

/-- C5 witness: a fresh connection joining `ops`, switching to `eng`
and leaving. -/
theorem single_connection_at_most_one_room_witness :
    noMembership freshServer "alice" ∧
    atMostOneRoom (applyOps freshServer "alice" opsDemo) "alice" := by
  have hn : noMembership freshServer "alice" := fun r => Finset.not_mem_empty "alice"
  exact ⟨hn, single_connection_at_most_one_room freshServer "alice" hn opsDemo⟩

/-- C6 counterexample: when the user is already a member, JOIN followed
by LEAVE does not restore the pre-JOIN membership set — `alice` is in
`ops` beforehand, and afterwards the room is empty. -/
theorem join_leave_roundtrip_cex :
    (leaveD (joinD dOps "ops" "alice") "ops" "alice").2 "ops" ≠ dOps "ops" := by
  decide

/-- C6 (amended): provided the user is not already a member of the room,
`join(roomId, userId)` immediately followed by `leave(roomId, userId)`
returns the whole directory — in particular the room's membership set —
to exactly its pre-JOIN state. -/
theorem join_then_leave_roundtrip (rooms : String → Finset String) (r u : String)
    (h : u ∉ rooms r) : (leaveD (joinD rooms r u) r u).2 = rooms := by
  have hne : joinD rooms r u r ≠ ∅ := by
    rw [joinD, Function.update_same]
    exact Finset.insert_ne_empty u (rooms r)
  have h2 : (leaveD (joinD rooms r u) r u).2
      = Function.update (joinD rooms r u) r ((joinD rooms r u r).erase u) := by
    simp only [leaveD, if_neg hne]
  have he : (joinD rooms r u r).erase u = rooms r := by
    rw [joinD, Function.update_same, Finset.erase_insert h]
  rw [h2, he, joinD, Function.update_idem, Function.update_eq_self]

/-- C6 witness: the round-trip on an empty directory. -/
theorem join_then_leave_roundtrip_witness :
    "alice" ∉ emptyRooms "lobby" ∧
    (leaveD (joinD emptyRooms "lobby" "alice") "lobby" "alice").2 = emptyRooms := by
  have h : "alice" ∉ emptyRooms "lobby" := Finset.not_mem_empty "alice"
  exact ⟨h, join_then_leave_roundtrip emptyRooms "lobby" "alice" h⟩

/-- C7: a well-formed LEAVE for a room the connection never joined
(including a room that does not exist) changes neither the Registry nor
the Directory and produces no reply at all, in particular no error. -/
theorem leave_never_joined_noop (s : Server) (u r : String)
    (hm : u ∉ s.rooms r) (hc : s.current u ≠ some r) :
    handleLeaveFrame s (some u) r = (s, []) := by
  have e : handleLeaveFrame s (some u) r =
      if s.current u = some r then
        (Server.mk (leaveD s.rooms r u).2 (Function.update s.current u none),
         [ServerAction.broadcast r])
      else (Server.mk (leaveD s.rooms r u).2 s.current, []) := rfl
  rw [e, if_neg hc, leaveD_noop s.rooms r u hm]

/-- C7 witness: `bob` leaving `ops`, which only `alice` occupies. -/
theorem leave_never_joined_noop_witness :
    "bob" ∉ serverDemo.rooms "ops" ∧
    serverDemo.current "bob" ≠ some "ops" ∧
    handleLeaveFrame serverDemo (some "bob") "ops" = (serverDemo, []) := by
  have h1 : "bob" ∉ serverDemo.rooms "ops" := by decide
  have h2 : serverDemo.current "bob" ≠ some "ops" := by decide
  exact ⟨h1, h2, leave_never_joined_noop serverDemo "bob" "ops" h1 h2⟩

/-- C8: transport recovery is client-owned — the UI constructs its STOMP
client with a fixed 5000 ms reconnect delay, and the server's
transport-close cleanup never emits a reconnection attempt. -/
theorem client_owns_reconnect_policy (s : Server) (u : String) :
    connectClientConfig.reconnectDelay = 5000 ∧
    ServerAction.reconnect ∉ (onTransportClose s u).2 := by
  refine ⟨rfl, ?_⟩
  unfold onTransportClose
  cases hc : s.current u <;> simp

end Presence
